import Mathlib

/-!
Shallow embedding of `src/gpytorch/constraints/constraints.py`.

Modelling conventions:
* A scalar tensor value is a real number (`ℝ`).
* Bounds are scalars.  Every constraint the repository constructs stores a
  lower bound in `ℝ ∪ {-∞}` and an upper bound in `ℝ ∪ {+∞}`, so a bound is
  an `Option ℝ`: `none` stands for the infinite endpoint (`-math.inf` for a
  lower bound, `math.inf` for an upper bound), `some r` for the finite value.
* `torch.nn.functional.sigmoid` / `softplus` belong to the external numeric
  collaborator; they are modelled by their mathematical definitions.
* Python exceptions are modelled with `Except`; an in-place mutation of the
  stored bounds is modelled by returning the updated object.
-/

open Filter Topology

namespace Constraints

/-- `torch.nn.functional.softplus`, supplied by the external tensor library:
`softplus x = log (1 + exp x)`. -/
noncomputable def softplus (x : ℝ) : ℝ := Real.log (1 + Real.exp x)

/-- `torch.nn.functional.sigmoid`, supplied by the external tensor library:
`sigmoid x = 1 / (1 + exp (-x))`. -/
noncomputable def sigmoid (x : ℝ) : ℝ := 1 / (1 + Real.exp (-x))

/-- The module-level transform functions the repository passes around
(`sigmoid`, `softplus`, `torch.exp`).  Python compares them by object
identity, which for module-level functions is equality of this tag. -/
inductive TransformKind
  | sigmoid
  | softplus
  | exp
deriving DecidableEq

/-- Evaluation of a transform function on a scalar. -/
noncomputable def transformEval : TransformKind → ℝ → ℝ
  | TransformKind.sigmoid, x => sigmoid x
  | TransformKind.softplus, x => softplus x
  | TransformKind.exp, x => Real.exp x

/-- Modelled from the spec: the numeric inverse transforms `inv_sigmoid` and
`inv_softplus` from `gpytorch.utils.transforms` (that file is not part of the
sources here; the spec says the external collaborator supplies "elementwise
exp/softplus/sigmoid and their numeric inverses"). -/
inductive InvTransformKind
  | inv_sigmoid
  | inv_softplus
deriving DecidableEq

/-- Modelled from the spec: evaluation of the numeric inverses,
`inv_sigmoid y = log (y / (1 - y))` and `inv_softplus y = log (exp y - 1)`. -/
noncomputable def invTransformEval : InvTransformKind → ℝ → ℝ
  | InvTransformKind.inv_sigmoid, y => Real.log (y / (1 - y))
  | InvTransformKind.inv_softplus, y => Real.log (Real.exp y - 1)

/-- A raised Python exception. -/
inductive PyErr
  | runtimeError (msg : String)
  | attributeError (attr : String)
deriving DecidableEq

/-- Modelled from the spec: `_get_inv_param_transform` from
`gpytorch.utils.transforms`, "a static transform→inverse registry (fails with
`UnknownInverseError` if the transform is unregistered)".  The registry knows
the inverses of the two default transforms. -/
def getInvParamTransform : TransformKind → Except PyErr InvTransformKind
  | TransformKind.sigmoid => Except.ok InvTransformKind.inv_sigmoid
  | TransformKind.softplus => Except.ok InvTransformKind.inv_softplus
  | TransformKind.exp => Except.error (PyErr.runtimeError "UnknownInverseError")

/-- The state of an `Interval` constraint object (also used for the
subclasses `GreaterThan`, `Positive` and `LessThan`, which add no fields).

`_transform` is the stored `self._transform` attribute.  `_inv_transform`
models the `self._inv_transform` attribute: `none` means the attribute was
never assigned (looking it up raises `AttributeError`).  `oid` is the CPython
object identity (`id(self)`), needed because `intersect` compares *bound
methods*, whose equality requires identical receivers. -/
structure Interval where
  lower_bound : Option ℝ
  upper_bound : Option ℝ
  _transform : Option TransformKind
  _inv_transform : Option InvTransformKind
  oid : Nat

/-- `Interval.__init__(lower_bound, upper_bound, transform=sigmoid,
inv_transform=inv_sigmoid)`.  For a scalar bound, `torch.any(upper_bound <
math.inf)` holds iff the bound is finite (`isSome`), and likewise
`torch.any(lower_bound > -math.inf)`.  Note the source assigns
`self._inv_transform` only under `transform is not None and inv_transform is
None`; when the caller supplies an inverse it is silently dropped and the
attribute stays unassigned. -/
def Interval.init (lower_bound upper_bound : Option ℝ)
    (transform : Option TransformKind) (inv_transform : Option InvTransformKind)
    (oid : Nat) : Except PyErr Interval :=
  if upper_bound.isSome = true ∧ lower_bound.isSome = true ∧
      transform ≠ some TransformKind.sigmoid then
    Except.error
      (PyErr.runtimeError "Cannot enforce a double sided bound with a non-sigmoid transform!")
  else
    match transform, inv_transform with
    | some t, none =>
      (getInvParamTransform t).map fun g =>
        { lower_bound := lower_bound, upper_bound := upper_bound,
          _transform := some t, _inv_transform := some g, oid := oid }
    | t, _ =>
      Except.ok
        { lower_bound := lower_bound, upper_bound := upper_bound,
          _transform := t, _inv_transform := none, oid := oid }

/-- `GreaterThan.__init__(lower_bound, transform=softplus,
inv_transform=inv_softplus)`: delegates to `Interval.__init__` with
`upper_bound = math.inf`. -/
def GreaterThan.init (oid : Nat) (lower_bound : ℝ)
    (transform : Option TransformKind) (inv_transform : Option InvTransformKind) :
    Except PyErr Interval :=
  Interval.init (some lower_bound) none transform inv_transform oid

/-- `Positive.__init__(transform=softplus, inv_transform=inv_softplus)`:
delegates to `GreaterThan.__init__` with `lower_bound = 0`. -/
def Positive.init (oid : Nat)
    (transform : Option TransformKind) (inv_transform : Option InvTransformKind) :
    Except PyErr Interval :=
  GreaterThan.init oid 0 transform inv_transform

/-- `LessThan.__init__(upper_bound, transform=softplus,
inv_transform=inv_softplus)`: delegates to `Interval.__init__` with
`lower_bound = -math.inf`. -/
def LessThan.init (oid : Nat) (upper_bound : ℝ)
    (transform : Option TransformKind) (inv_transform : Option InvTransformKind) :
    Except PyErr Interval :=
  Interval.init none (some upper_bound) transform inv_transform oid

/-- `Interval.enforced`: `self._transform is not None`. -/
def Interval.enforced (c : Interval) : Bool :=
  c._transform.isSome

/-- `Interval.check(tensor)`: `torch.all(tensor <= self.upper_bound) and
torch.all(tensor >= self.lower_bound)`.  Comparison against an infinite
bound (`none`) is elementwise true, which the `Option` membership encodes
vacuously. -/
def Interval.check (c : Interval) (tensor : List ℝ) : Prop :=
  (∀ x ∈ tensor, ∀ u ∈ c.upper_bound, x ≤ u) ∧
  (∀ x ∈ tensor, ∀ l ∈ c.lower_bound, l ≤ x)

/-- `torch.max` of two scalar lower bounds, where `none` is `-math.inf`. -/
noncomputable def lowerMax : Option ℝ → Option ℝ → Option ℝ
  | none, b => b
  | a, none => a
  | some a, some b => some (max a b)

/-- `torch.min` of two scalar upper bounds, where `none` is `math.inf`. -/
noncomputable def upperMin : Option ℝ → Option ℝ → Option ℝ
  | none, b => b
  | a, none => a
  | some a, some b => some (min a b)

/-- `Interval.intersect(other)`.  The guard is `if self.transform !=
other.transform:` where `transform` is an *instance method*, so both sides
are bound methods.  CPython bound methods compare equal iff their
`__func__`s are equal and their `__self__`s are the *same object*
(`torch.nn.Module` does not override `__eq__`), hence for two distinct
constraint objects the guard always fires, whatever their configured
`_transform` functions; for the same object it never does.  This is exactly
`self.oid ≠ other.oid`.  On the non-error path the source builds
`Interval(lower_bound, upper_bound)` with the *default* transform arguments;
`freshOid` is the identity of that new object. -/
noncomputable def Interval.intersect (c other : Interval) (freshOid : Nat) : Except PyErr Interval :=
  if c.oid ≠ other.oid then
    Except.error
      (PyErr.runtimeError "Cant intersect Interval constraints with conflicting transforms!")
  else
    Interval.init (lowerMax c.lower_bound other.lower_bound)
      (upperMin c.upper_bound other.upper_bound)
      (some TransformKind.sigmoid) (some InvTransformKind.inv_sigmoid) freshOid

/-- `Interval.transform(tensor)` on a scalar.  The source clones the stored
bounds before the masked in-place replacement (`upper_bound[upper_bound ==
math.inf] = 1.`, `lower_bound[lower_bound == -math.inf] = 0.`), so the
stored bounds are untouched: the returned state is the unchanged object.
`Option.getD` is exactly the masked replacement on a scalar. -/
noncomputable def Interval.transform (c : Interval) (tensor : ℝ) : ℝ × Interval :=
  match c._transform with
  | none => (tensor, c)
  | some f =>
    let transformed := transformEval f tensor
    let upper := c.upper_bound.getD 1
    let lower := c.lower_bound.getD 0
    (transformed * upper + lower, c)

/-- The two affine-inversion lines of `Interval.inverse_transform`
(`tensor = transformed_tensor - self.lower_bound` then
`tensor = tensor / self.upper_bound`), as a function of the scalar values
the stored bounds hold at that point. -/
noncomputable def Interval.affineInvStep (lower upper transformed_tensor : ℝ) : ℝ :=
  (transformed_tensor - lower) / upper

/-- `Interval.inverse_transform(transformed_tensor)` on a scalar.  Unlike
`transform`, the source does *not* clone: `upper_bound = self.upper_bound`
aliases the stored tensor and the masked in-place replacement mutates it
(likewise for the lower bound), so the subsequent
`transformed_tensor - self.lower_bound` and `tensor / self.upper_bound`
read the already-adjusted values. The lookup `self._inv_transform` raises
`AttributeError` when the attribute was never assigned — after the bounds
were already mutated.  The returned state is the (possibly mutated)
object. -/
noncomputable def Interval.inverse_transform (c : Interval) (transformed_tensor : ℝ) :
    Except PyErr ℝ × Interval :=
  match c._transform with
  | none => (Except.ok transformed_tensor, c)
  | some _ =>
    let upper := c.upper_bound.getD 1
    let lower := c.lower_bound.getD 0
    let c2 := { c with upper_bound := some upper, lower_bound := some lower }
    let t2 := Interval.affineInvStep lower upper transformed_tensor
    match c2._inv_transform with
    | none => (Except.error (PyErr.attributeError "_inv_transform"), c2)
    | some g => (Except.ok (invTransformEval g t2), c2)

/-- `LessThan.transform(tensor)` on a scalar.  The source line
`transformed_tensor = -self.transform(-tensor)` calls the *same method*
(`self.transform`, not `self._transform`), so on an enforced constraint the
method recurses forever; `fuel` counts the remaining Python stack frames and
`none` is the `RecursionError` Python raises when they run out.  Every
`LessThan` the repository builds stores a finite upper bound, read back with
`getD` on the addition line. -/
noncomputable def LessThan.transform : Nat → Interval → ℝ → Option ℝ
  | 0, _, _ => none
  | fuel + 1, c, tensor =>
    match c._transform with
    | none => some tensor
    | some _ =>
      match LessThan.transform fuel c (-tensor) with
      | none => none
      | some t => some (-t + c.upper_bound.getD 0)

/-- `LessThan.inverse_transform(transformed_tensor)` on a scalar:
`tensor = transformed_tensor - self.upper_bound` then
`tensor = -self._inv_transform(-tensor)`; the attribute lookup raises
`AttributeError` when `_inv_transform` was never assigned.  No bound is
mutated here.  Every `LessThan` the repository builds stores a finite upper
bound, read back with `getD`. -/
noncomputable def LessThan.inverse_transform (c : Interval) (transformed_tensor : ℝ) :
    Except PyErr ℝ :=
  match c._transform with
  | none => Except.ok transformed_tensor
  | some _ =>
    let t := transformed_tensor - c.upper_bound.getD 0
    match c._inv_transform with
    | none => Except.error (PyErr.attributeError "_inv_transform")
    | some g => Except.ok (-(invTransformEval g (-t)))

/-- The affine inversion step of `Interval.inverse_transform` as the spec
describes it: "invert the affine step (`(constrained - lower_bound) /
upper_bound`)" using "the *unadjusted* bounds (including possible
infinities)".  With IEEE float semantics a finite value minus `-math.inf`
is `+inf` (a non-finite result, `none`), and a finite value divided by
`math.inf` is `0`. -/
noncomputable def specAffineInverse (c : Interval) (constrained : ℝ) : Option ℝ :=
  match c.lower_bound with
  | none => none
  | some l =>
    match c.upper_bound with
    | none => some 0
    | some u => some ((constrained - l) / u)

/-! Concrete constraint objects, as `__init__` builds them.  The `oid`
fields are the (arbitrary but distinct) CPython identities of the
objects. -/

/-- The object `Interval(0, 10)` (all other arguments default). -/
def interval010 : Interval :=
  { lower_bound := some 0, upper_bound := some 10,
    _transform := some TransformKind.sigmoid, _inv_transform := none, oid := 0 }

/-- The object `Interval(2, 20)` (all other arguments default). -/
def interval220 : Interval :=
  { lower_bound := some 2, upper_bound := some 20,
    _transform := some TransformKind.sigmoid, _inv_transform := none, oid := 1 }

/-- The object `GreaterThan(1)` (all other arguments default). -/
def greaterThan1 : Interval :=
  { lower_bound := some 1, upper_bound := none,
    _transform := some TransformKind.softplus, _inv_transform := none, oid := 2 }

/-- The object `Positive()` (all arguments default). -/
def positiveC : Interval :=
  { lower_bound := some 0, upper_bound := none,
    _transform := some TransformKind.softplus, _inv_transform := none, oid := 3 }

/-- The object `LessThan(5)` (all other arguments default). -/
def lessThan5 : Interval :=
  { lower_bound := none, upper_bound := some 5,
    _transform := some TransformKind.softplus, _inv_transform := none, oid := 4 }

/-- The object `GreaterThan(1, inv_transform=None)`: here `__init__` does
consult the registry, so `_inv_transform` is assigned. -/
def greaterThan1R : Interval :=
  { lower_bound := some 1, upper_bound := none,
    _transform := some TransformKind.softplus,
    _inv_transform := some InvTransformKind.inv_softplus, oid := 5 }

/-- On an enforced constraint, `LessThan.transform` recurses forever: no
amount of fuel produces a value. -/
theorem lessThan_transform_no_value (c : Interval) (h : c._transform.isSome = true) :
    ∀ fuel x, LessThan.transform fuel c x = none := by
  intro fuel
  induction fuel with
  | zero => intro x; rfl
  | succ n ih =>
    intro x
    cases htf : c._transform with
    | none => rw [htf] at h; simp [Option.isSome] at h
    | some f => simp [LessThan.transform, htf, ih]

/-- C1: the claim says `inverse_transform(transform(raw))` equals `raw` for
every variant built with its default transform and inverse.  On the code,
`__init__` assigns `self._inv_transform` only when the `inv_transform`
argument is `None`; with the defaults (`inv_sigmoid` resp. `inv_softplus`)
the attribute is never assigned, so `inverse_transform` raises
`AttributeError` instead of returning `raw` — and `LessThan.transform` never
even produces a value (infinite recursion). -/
theorem default_roundtrip_raises_attribute_error :
    (Interval.init (some 0) (some 10) (some TransformKind.sigmoid)
        (some InvTransformKind.inv_sigmoid) 0 = Except.ok interval010) ∧
    ((Interval.inverse_transform interval010 (Interval.transform interval010 1).1).1
        = Except.error (PyErr.attributeError "_inv_transform")) ∧
    (GreaterThan.init 2 1 (some TransformKind.softplus)
        (some InvTransformKind.inv_softplus) = Except.ok greaterThan1) ∧
    ((Interval.inverse_transform greaterThan1 (Interval.transform greaterThan1 1).1).1
        = Except.error (PyErr.attributeError "_inv_transform")) ∧
    (Positive.init 3 (some TransformKind.softplus)
        (some InvTransformKind.inv_softplus) = Except.ok positiveC) ∧
    ((Interval.inverse_transform positiveC (Interval.transform positiveC 1).1).1
        = Except.error (PyErr.attributeError "_inv_transform")) ∧
    (LessThan.init 4 5 (some TransformKind.softplus)
        (some InvTransformKind.inv_softplus) = Except.ok lessThan5) ∧
    (∀ fuel raw, LessThan.transform fuel lessThan5 raw = none) ∧
    (∀ y, LessThan.inverse_transform lessThan5 y
        = Except.error (PyErr.attributeError "_inv_transform")) :=
  ⟨rfl, rfl, rfl, rfl, rfl, rfl, rfl,
   fun fuel raw => lessThan_transform_no_value lessThan5 rfl fuel raw,
   fun _ => rfl⟩

/-- C2: the claim says `Interval(0,10).intersect(Interval(2,20))` returns an
Interval with bounds `(2,10)` without raising.  On the code the guard
`self.transform != other.transform` compares *bound methods*, which are
never equal for two distinct objects, so the call raises even though both
constraints were configured with the same (default sigmoid) transform. -/
theorem interval_intersect_always_raises :
    (Interval.init (some 0) (some 10) (some TransformKind.sigmoid)
        (some InvTransformKind.inv_sigmoid) 0 = Except.ok interval010) ∧
    (Interval.init (some 2) (some 20) (some TransformKind.sigmoid)
        (some InvTransformKind.inv_sigmoid) 1 = Except.ok interval220) ∧
    interval010._transform = interval220._transform ∧
    Interval.intersect interval010 interval220 7
      = Except.error
          (PyErr.runtimeError "Cant intersect Interval constraints with conflicting transforms!") :=
  ⟨rfl, rfl, rfl, rfl⟩

/-- C3: the claim says `LessThan(u).transform(raw)` terminates and equals
`upper_bound - softplus(-raw)`.  On the code the line
`transformed_tensor = -self.transform(-tensor)` re-enters the same method,
so on an enforced constraint the recursion never terminates: no amount of
fuel (stack) produces a value. -/
theorem lessThan5_transform_diverges :
    (LessThan.init 4 5 (some TransformKind.softplus)
        (some InvTransformKind.inv_softplus) = Except.ok lessThan5) ∧
    ∀ fuel raw, LessThan.transform fuel lessThan5 raw = none :=
  ⟨rfl, fun fuel raw => lessThan_transform_no_value lessThan5 rfl fuel raw⟩

/-- C4: the claim says `transform`, `inverse_transform` and `check` leave the
stored bounds unchanged.  `transform` does (it clones), but
`inverse_transform` adjusts the stored bounds *in place* (no clone): on
`GreaterThan(1)` it overwrites the stored `math.inf` upper bound with `1`. -/
theorem inverse_transform_mutates_stored_bounds :
    (GreaterThan.init 2 1 (some TransformKind.softplus)
        (some InvTransformKind.inv_softplus) = Except.ok greaterThan1) ∧
    greaterThan1.upper_bound = none ∧
    (Interval.transform greaterThan1 2).2 = greaterThan1 ∧
    (Interval.inverse_transform greaterThan1 2).2.upper_bound = some 1 ∧
    (Interval.inverse_transform greaterThan1 2).2 ≠ greaterThan1 := by
  refine ⟨rfl, rfl, rfl, rfl, ?_⟩
  intro h
  exact Option.noConfusion (congrArg Interval.upper_bound h)

/-- C5: constructing an `Interval` with two finite bounds and a transform
other than sigmoid raises, while the same construction with an infinite
upper bound succeeds. -/
theorem double_sided_requires_sigmoid (l u : ℝ) (t : Option TransformKind)
    (g : Option InvTransformKind) (n : Nat) (h : t ≠ some TransformKind.sigmoid) :
    Interval.init (some l) (some u) t g n
      = Except.error
          (PyErr.runtimeError "Cannot enforce a double sided bound with a non-sigmoid transform!") ∧
    ∃ c, Interval.init (some l) none t (some InvTransformKind.inv_sigmoid) n = Except.ok c := by
  constructor
  · cases t with
    | none => rfl
    | some t2 =>
      cases t2 with
      | sigmoid => exact absurd rfl h
      | softplus => rfl
      | exp => rfl
  · cases t with
    | none => exact ⟨_, rfl⟩
    | some t2 => exact ⟨_, rfl⟩

/-- Witness for C5 at `Interval(0, 10, transform=exp)` and
`Interval(0, math.inf, transform=exp)`. -/
theorem double_sided_requires_sigmoid_witness :
    Interval.init (some 0) (some 10) (some TransformKind.exp)
        (some InvTransformKind.inv_sigmoid) 0
      = Except.error
          (PyErr.runtimeError "Cannot enforce a double sided bound with a non-sigmoid transform!") ∧
    ∃ c, Interval.init (some 0) none (some TransformKind.exp)
        (some InvTransformKind.inv_sigmoid) 0 = Except.ok c :=
  double_sided_requires_sigmoid 0 10 (some TransformKind.exp)
    (some InvTransformKind.inv_sigmoid) 0 (by decide)

/-- C6: the claim says `intersect` raises iff the two constraints use
different transform functions.  On the code it raises for any two distinct
objects — here two constraints whose stored `_transform`s are equal — and
only the degenerate self-intersection does not raise. -/
theorem intersect_raises_despite_equal_transforms :
    (GreaterThan.init 2 1 (some TransformKind.softplus)
        (some InvTransformKind.inv_softplus) = Except.ok greaterThan1) ∧
    (Positive.init 3 (some TransformKind.softplus)
        (some InvTransformKind.inv_softplus) = Except.ok positiveC) ∧
    greaterThan1._transform = positiveC._transform ∧
    (Interval.intersect greaterThan1 positiveC 8
      = Except.error
          (PyErr.runtimeError "Cant intersect Interval constraints with conflicting transforms!")) ∧
    (∃ d, Interval.intersect interval010 interval010 9 = Except.ok d) :=
  ⟨rfl, rfl, rfl, rfl, ⟨_, rfl⟩⟩

/-- C7 counterexample: the claim says the affine inversion in
`inverse_transform` uses the *unadjusted* stored bounds, including possible
infinities.  On `GreaterThan(1, inv_transform=None)` with input `3` the code
feeds `(3 - 1) / 1 = 2` (adjusted bounds) to the inverse, whereas the
spec-described unadjusted computation `(3 - 1) / math.inf` gives `0`. -/
theorem affine_inversion_not_unadjusted :
    (GreaterThan.init 5 1 (some TransformKind.softplus) none = Except.ok greaterThan1R) ∧
    ((Interval.inverse_transform greaterThan1R 3).1
      = Except.ok (invTransformEval InvTransformKind.inv_softplus (Interval.affineInvStep 1 1 3))) ∧
    Interval.affineInvStep 1 1 3 = 2 ∧
    specAffineInverse greaterThan1R 3 = some 0 ∧
    ((2 : ℝ) ≠ 0) :=
  ⟨rfl, rfl, by norm_num [Interval.affineInvStep], rfl, by norm_num⟩

/-- C7 amended: the affine inversion in `inverse_transform` uses the same
0/1-adjusted bound values that `transform` uses; the adjustment is performed
in place on the stored bounds (aliased, not cloned), so the returned state
carries the adjusted bounds. -/
theorem inverse_transform_affine_uses_adjusted_bounds (lb ub : Option ℝ)
    (f : TransformKind) (g : InvTransformKind) (n : Nat) (x : ℝ) :
    Interval.inverse_transform ⟨lb, ub, some f, some g, n⟩ x
      = (Except.ok (invTransformEval g (Interval.affineInvStep (lb.getD 0) (ub.getD 1) x)),
         ⟨some (lb.getD 0), some (ub.getD 1), some f, some g, n⟩) ∧
    (Interval.transform ⟨lb, ub, some f, some g, n⟩ x).1
      = transformEval f x * ub.getD 1 + lb.getD 0 :=
  ⟨rfl, rfl⟩

/-- C8: `check(value)` holds iff every element of `value` lies within
`[lower_bound, upper_bound]` inclusive; in particular both boundary values
pass the check. -/
theorem check_iff_within_bounds (c : Interval) (l u : ℝ)
    (hl : c.lower_bound = some l) (hu : c.upper_bound = some u) (hlu : l ≤ u) :
    (∀ xs : List ℝ, Interval.check c xs ↔ ∀ x ∈ xs, l ≤ x ∧ x ≤ u) ∧
    Interval.check c [l] ∧ Interval.check c [u] := by
  have hiff : ∀ xs : List ℝ, Interval.check c xs ↔ ∀ x ∈ xs, l ≤ x ∧ x ≤ u := by
    intro xs
    rw [Interval.check, hl, hu]
    constructor
    · rintro ⟨h1, h2⟩ x hx
      exact ⟨h2 x hx l rfl, h1 x hx u rfl⟩
    · intro h
      refine ⟨fun x hx v hv => ?_, fun x hx v hv => ?_⟩
      · cases hv
        exact (h x hx).2
      · cases hv
        exact (h x hx).1
  refine ⟨hiff, (hiff [l]).mpr ?_, (hiff [u]).mpr ?_⟩
  · intro x hx
    rw [List.mem_singleton] at hx
    subst hx
    exact ⟨le_refl x, hlu⟩
  · intro x hx
    rw [List.mem_singleton] at hx
    subst hx
    exact ⟨hlu, le_refl x⟩

/-- Witness for C8 on `Interval(0, 10)`. -/
theorem check_iff_within_bounds_witness :
    (∀ xs : List ℝ, Interval.check interval010 xs ↔ ∀ x ∈ xs, 0 ≤ x ∧ x ≤ 10) ∧
    Interval.check interval010 [0] ∧ Interval.check interval010 [10] :=
  check_iff_within_bounds interval010 0 10 rfl rfl (by norm_num)

/-- C9: on the default-built `Positive()` constraint, `transform(raw)`
equals `softplus raw`, is strictly positive for every raw input, and tends
to `0` as `raw → -∞`. -/
theorem positive_transform_pos_tendsto_zero (c : Interval)
    (h : Positive.init 3 (some TransformKind.softplus)
        (some InvTransformKind.inv_softplus) = Except.ok c) :
    (∀ raw, (Interval.transform c raw).1 = softplus raw ∧ 0 < (Interval.transform c raw).1) ∧
    Tendsto (fun raw => (Interval.transform c raw).1) atBot (nhds 0) := by
  have h2 : Except.ok positiveC = Except.ok c := h
  obtain rfl := Except.ok.inj h2
  have hval : ∀ raw, (Interval.transform positiveC raw).1 = softplus raw := by
    intro raw
    simp [Interval.transform, positiveC, transformEval]
  have hpos : ∀ raw, (0 : ℝ) < softplus raw := by
    intro raw
    have hexp := Real.exp_pos raw
    have h1 : (1 : ℝ) < 1 + Real.exp raw := by linarith
    exact Real.log_pos h1
  refine ⟨fun raw => ⟨hval raw, (hval raw) ▸ hpos raw⟩, ?_⟩
  have he : (fun raw => (Interval.transform positiveC raw).1)
      = fun raw => Real.log (1 + Real.exp raw) := by
    funext raw
    rw [hval raw, softplus]
  rw [he]
  have hlim1 : Tendsto (fun x : ℝ => 1 + Real.exp x) atBot (nhds 1) := by
    have h0 : Tendsto (fun _ : ℝ => (1 : ℝ)) atBot (nhds 1) := tendsto_const_nhds
    simpa using h0.add Real.tendsto_exp_atBot
  have hlog := (Real.continuousAt_log (by norm_num : (1 : ℝ) ≠ 0)).tendsto.comp hlim1
  simpa using hlog

/-- Witness for C9 on the object `Positive()` itself. -/
theorem positive_transform_pos_tendsto_zero_witness :
    (∀ raw, (Interval.transform positiveC raw).1 = softplus raw
        ∧ 0 < (Interval.transform positiveC raw).1) ∧
    Tendsto (fun raw => (Interval.transform positiveC raw).1) atBot (nhds 0) :=
  positive_transform_pos_tendsto_zero positiveC rfl

/-- C10: whenever `__init__` is given a non-`None` `inv_transform` argument
(as every default construction is), the supplied inverse is never stored:
`_inv_transform` stays unassigned and `inverse_transform` raises
`AttributeError`. -/
theorem supplied_inverse_never_stored (lb ub : Option ℝ) (t : TransformKind)
    (g : InvTransformKind) (n : Nat) (c : Interval)
    (h : Interval.init lb ub (some t) (some g) n = Except.ok c) :
    c._inv_transform = none ∧
    ∀ x, (Interval.inverse_transform c x).1
        = Except.error (PyErr.attributeError "_inv_transform") := by
  have hshape : Interval.init lb ub (some t) (some g) n
        = Except.error
            (PyErr.runtimeError "Cannot enforce a double sided bound with a non-sigmoid transform!")
      ∨ Interval.init lb ub (some t) (some g) n
        = Except.ok ⟨lb, ub, some t, none, n⟩ := by
    cases lb with
    | none =>
      cases ub with
      | none => exact Or.inr rfl
      | some u => exact Or.inr rfl
    | some l =>
      cases ub with
      | none => exact Or.inr rfl
      | some u =>
        cases t with
        | sigmoid => exact Or.inr rfl
        | softplus => exact Or.inl rfl
        | exp => exact Or.inl rfl
  rcases hshape with he | he
  · rw [he] at h
    exact Except.noConfusion h
  · rw [he] at h
    obtain rfl := Except.ok.inj h
    exact ⟨rfl, fun x => rfl⟩

/-- Witness for C10 at `Interval(0, 10)` with its default arguments. -/
theorem supplied_inverse_never_stored_witness :
    interval010._inv_transform = none ∧
    ∀ x, (Interval.inverse_transform interval010 x).1
        = Except.error (PyErr.attributeError "_inv_transform") :=
  supplied_inverse_never_stored (some 0) (some 10) TransformKind.sigmoid
    InvTransformKind.inv_sigmoid 0 interval010 rfl

end Constraints
